import Mathlib

/-!
Verification development for the El-AgusTin football-betting backend.

The backend synchronizes league/team/match data and odds from an external
sports API into a document store (MongoDB), serves it over HTTP, and grants
virtual coins to users per jornada (match round).

This file shallowly embeds the relevant parts of the code base:

* matches/models.py: the Match document accessor (create_or_update,
  deactivate_matches, get_active_jornadas, the active-match queries);
* matches/management/commands/assign_coins.py: the batch coin-assignment
  command, as a pure state transformer over the matches collection and the
  relational user rows;
* users/models.py and users/views.py: login-triggered coin assignment;
* matches/api_client.py: the outcome classification of _make_request and
  the keyword signature of get_fixtures_with_odds;
* matches/views.py: the 1X2 odds extraction of JornadaManagementView.post
  and the keyword arguments MatchListView.post passes to the client.

Modelling conventions: MongoDB collections are lists of documents in
insertion order; update_one with upsert replaces the first document matching
the filter or appends a fresh one; update_many maps a field update over all
matching documents.  Decimal amounts and odds are rationals.  Wall-clock
instants are Nat (document timestamps), Int seconds (the login path, which
subtracts datetimes), or ISO-8601 strings (the command path, which compares
isoformat strings with Python string comparison).  The MongoDB mirror of the
user rows (sync_to_mongodb) is write-only and never read back by the code
under verification, so it is not part of the state.
-/

namespace ElAgustin

/-! ### Python truthiness and string comparison helpers -/

/-- Truthiness of an optional integer field in Python: None and 0 are falsy. -/
def truthyNat : Option Nat → Bool
  | none => false
  | some n => n != 0

/-- Truthiness of an optional list argument in Python: None and the empty
list are falsy (deactivate_matches tests the fixture_ids argument this way). -/
def truthyIdList : Option (List Nat) → Bool
  | some (_ :: _) => true
  | _ => false

/-- Lexicographic comparison of char lists by code point, as Python compares
strings. -/
def charListLt : List Char → List Char → Bool
  | [], [] => false
  | [], _ :: _ => true
  | _ :: _, [] => false
  | a :: as, b :: bs => if a < b then true else if b < a then false else charListLt as bs

/-- Python < on strings (used on ISO-8601 date strings by the command). -/
def pyStrLt (a b : String) : Bool := charListLt a.data b.data

/-- Python min over a nonempty list of strings: fold keeping the smallest. -/
def pyStrMin (a : String) (l : List String) : String :=
  l.foldl (fun acc s => if pyStrLt s acc then s else acc) a

/-! ### Match documents (matches/models.py) -/

/-- A document of the matches collection, with exactly the fields that
Match.create_or_update writes. -/
structure MatchDoc where
  fixture_id : Nat
  league_id : Option Nat := none
  league_name : Option String := none
  league_country : Option String := none
  league_logo : Option String := none
  season : Option Nat := none
  round : Option String := none
  home_team_id : Option Nat := none
  home_team_name : Option String := none
  home_team_logo : Option String := none
  away_team_id : Option Nat := none
  away_team_name : Option String := none
  away_team_logo : Option String := none
  date : Option String := none
  timestamp : Option Nat := none
  venue : Option String := none
  status : Option String := none
  elapsed : Option Nat := none
  score_home : Option Nat := none
  score_away : Option Nat := none
  odds_home : ℚ := 2
  odds_draw : ℚ := 3
  odds_away : ℚ := 4
  is_active : Bool := true
  jornada : String := "current"
  last_updated : Nat := 0
  deriving Repr, DecidableEq

/-- A bet value of the odds dict in a match payload.  conv q stands for an
int, float, Decimal or numeric string that Decimal(str(v)) converts to q;
noconv stands for a value failing the isinstance check, which the code
skips.  (A string passing isinstance but failing Decimal conversion raises
an uncaught exception in the source and is outside the embedded domain.) -/
inductive BetVal where
  | conv (q : ℚ)
  | noconv
  deriving Repr, DecidableEq

/-- The odds entry of a match payload: absent key, present but not a dict
(e.g. the raw odds list the fixtures-with-odds sync attaches), or a dict of
bet-type / value pairs in iteration order. -/
inductive OddsField where
  | absent
  | notDict
  | dict (entries : List (String × BetVal))
  deriving Repr, DecidableEq

/-- The fields Match.create_or_update reads from an API match payload, each
as the corresponding chain of dict .get calls (absent keys are none). -/
structure MatchData where
  fixture_id : Option Nat := none
  league_id : Option Nat := none
  league_name : Option String := none
  league_country : Option String := none
  league_logo : Option String := none
  season : Option Nat := none
  round : Option String := none
  home_team_id : Option Nat := none
  home_team_name : Option String := none
  home_team_logo : Option String := none
  away_team_id : Option Nat := none
  away_team_name : Option String := none
  away_team_logo : Option String := none
  date : Option String := none
  timestamp : Option Nat := none
  venue : Option String := none
  status : Option String := none
  elapsed : Option Nat := none
  goals_home : Option Nat := none
  goals_away : Option Nat := none
  odds : OddsField := .absent
  jornada : Option String := none
  deriving Repr, DecidableEq

/-- Default odds of create_or_update: home 2.0, draw 3.0, away 4.0. -/
structure OddsDict where
  home : ℚ
  draw : ℚ
  away : ℚ
  deriving Repr, DecidableEq

/-- One iteration of the odds-merging loop of create_or_update: a key
already in the defaults dict with a convertible value overwrites it. -/
def setOdd (o : OddsDict) (k : String) (v : BetVal) : OddsDict :=
  match v with
  | .noconv => o
  | .conv q =>
    if k = "home" then { o with home := q }
    else if k = "draw" then { o with draw := q }
    else if k = "away" then { o with away := q }
    else o

/-- Odds merging of create_or_update: start from the defaults 2.0/3.0/4.0
and fold the entries of the odds dict when one is present. -/
def mergeOdds : OddsField → OddsDict
  | .absent => ⟨2, 3, 4⟩
  | .notDict => ⟨2, 3, 4⟩
  | .dict entries => entries.foldl (fun o kv => setOdd o kv.1 kv.2) ⟨2, 3, 4⟩

/-- The document create_or_update builds from a payload whose fixture id is
fid, at wall-clock instant now. -/
def buildMatchDoc (md : MatchData) (fid : Nat) (now : Nat) : MatchDoc :=
  let o := mergeOdds md.odds
  { fixture_id := fid
    league_id := md.league_id
    league_name := md.league_name
    league_country := md.league_country
    league_logo := md.league_logo
    season := md.season
    round := md.round
    home_team_id := md.home_team_id
    home_team_name := md.home_team_name
    home_team_logo := md.home_team_logo
    away_team_id := md.away_team_id
    away_team_name := md.away_team_name
    away_team_logo := md.away_team_logo
    date := md.date
    timestamp := md.timestamp
    venue := md.venue
    status := md.status
    elapsed := md.elapsed
    score_home := md.goals_home
    score_away := md.goals_away
    odds_home := o.home
    odds_draw := o.draw
    odds_away := o.away
    is_active := true
    jornada := md.jornada.getD "current"
    last_updated := now }

/-- MongoDB update_one with upsert on the filter fixture_id = fid, where the
update sets every modelled field: replace the first matching document, or
append when none matches. -/
def updateOneUpsert (fid : Nat) (doc : MatchDoc) : List MatchDoc → List MatchDoc
  | [] => [doc]
  | d :: rest =>
    if d.fixture_id = fid then doc :: rest else d :: updateOneUpsert fid doc rest

/-- Match.create_or_update: reject a falsy fixture id, otherwise build the
document and upsert it.  Returns the document written (None on rejection)
and the new collection. -/
def matchCreateOrUpdate (md : MatchData) (now : Nat) (c : List MatchDoc) :
    Option MatchDoc × List MatchDoc :=
  if truthyNat md.fixture_id then
    match md.fixture_id with
    | some fid =>
      let doc := buildMatchDoc md fid now
      (some doc, updateOneUpsert fid doc c)
    | none => (none, c)
  else (none, c)

/-- Field update applied by Match.deactivate_matches to a matching document. -/
def deactivateDoc (now : Nat) (d : MatchDoc) : MatchDoc :=
  { d with is_active := false, last_updated := now }

/-- Match.deactivate_matches: with a truthy fixture_ids argument the filter
is fixture_id in the list, otherwise the empty filter matching every
document.  Returns the new collection and the number of documents the
update actually modified (the modified_count the source returns). -/
def deactivateMatches (fids : Option (List Nat)) (now : Nat) (c : List MatchDoc) :
    List MatchDoc × Nat :=
  let p : MatchDoc → Bool := fun d =>
    if truthyIdList fids then (fids.getD []).contains d.fixture_id else true
  (c.map fun d => if p d then deactivateDoc now d else d,
   c.countP fun d => p d && !(deactivateDoc now d == d))

/-- Number of documents of the collection carrying a given fixture id. -/
def countFixture (c : List MatchDoc) (fid : Nat) : Nat :=
  c.countP fun d => d.fixture_id == fid

/-- Match.get_active_jornadas: the distinct jornada labels of the active
matches.  The aggregation order of MongoDB is unspecified; the model fixes
first-appearance order. -/
def getActiveJornadas (c : List MatchDoc) : List String :=
  ((c.filter (·.is_active)).map (·.jornada)).eraseDups

/-- The per-jornada active-match query of the command:
find jornada = jn and is_active = true. -/
def jornadaActiveMatches (c : List MatchDoc) (jn : String) : List MatchDoc :=
  c.filter fun m => m.jornada == jn && m.is_active

/-! ### The batch coin-assignment command (assign_coins.py) -/

/-- A relational user row, with the fields the command touches.  The
last-assignment instant is kept as its isoformat string, since the command
only ever compares isoformat output against stored date strings. -/
structure UserRec where
  username : String
  is_active : Bool
  virtual_coins : ℚ
  last_coins_assignment : Option String := none
  deriving Repr, DecidableEq

/-- Status short codes the command treats as started. -/
def startedStatuses : List String := ["1H", "2H", "HT", "FT", "AET", "PEN"]

/-- Whether a stored status counts as started: a missing status is not in
the list, hence not started. -/
def statusStarted : Option String → Bool
  | none => false
  | some s => startedStatuses.contains s

/-- The truthy date strings of a list of match documents
(collecting match.get("date") values, keeping only truthy ones). -/
def truthyDates (ms : List MatchDoc) : List String :=
  (ms.filterMap (·.date)).filter fun s => s != ""

/-- The earliest match date of the jornada, when any match has a truthy
date: Python min over the collected date strings. -/
def earliestMatchDate (ms : List MatchDoc) : Option String :=
  match truthyDates ms with
  | [] => none
  | d :: ds => some (pyStrMin d ds)

/-- The per-user credit of the command: F-expression increment of the coin
balance plus stamping the assignment instant. -/
def assignToUser (amount : ℚ) (now : String) (u : UserRec) : UserRec :=
  { u with virtual_coins := u.virtual_coins + amount,
           last_coins_assignment := some now }

/-- The body of the per-user loop of the command: without force, a user with
a previous assignment later (as a string) than the earliest match date is
skipped; everyone else is credited. -/
def processUser (force : Bool) (amount : ℚ) (now : String) (ms : List MatchDoc)
    (u : UserRec) : UserRec :=
  if !force && u.last_coins_assignment.isSome then
    match earliestMatchDate ms, u.last_coins_assignment with
    | some e, some t => if pyStrLt e t then u else assignToUser amount now u
    | _, _ => assignToUser amount now u
  else assignToUser amount now u

/-- Jornada resolution of the command: a truthy --jornada argument wins,
otherwise the first active jornada (argparse can also hand over an empty
string, which is falsy). -/
def resolveJornada (jornadaOpt : Option String) (mcoll : List MatchDoc) :
    Option String :=
  match jornadaOpt with
  | some j => if j = "" then (getActiveJornadas mcoll).head? else some j
  | none => (getActiveJornadas mcoll).head?

/-- Outcome of a command run: the user rows after the run and the messages
written to stdout (modelled just precisely enough to tell the branches
apart). -/
structure CmdResult where
  users : List UserRec
  messages : List String
  deriving Repr, DecidableEq

/-- Command.handle of assign_coins: resolve the jornada, load its active
matches, refuse the batch when empty or (unforced) when some match has
started, otherwise run the per-user loop over the active users. -/
def commandHandle (jornadaOpt : Option String) (amount : ℚ) (force : Bool)
    (now : String) (mcoll : List MatchDoc) (users : List UserRec) : CmdResult :=
  match resolveJornada jornadaOpt mcoll with
  | none => ⟨users, ["No active jornadas found"]⟩
  | some jn =>
    let ms := jornadaActiveMatches mcoll jn
    if ms.isEmpty then
      ⟨users, ["No active matches found for jornada " ++ jn]⟩
    else if !(ms.all fun m => !statusStarted m.status) && !force then
      ⟨users, ["Some matches for jornada " ++ jn ++ " have already started. Use --force to assign coins anyway."]⟩
    else
      ⟨users.map (fun u => if u.is_active then processUser force amount now ms u else u),
       ["Successfully assigned coins for jornada " ++ jn]⟩

/-! ### Login-triggered assignment (users/models.py, users/views.py) -/

/-- A relational user row as the login path sees it: here the assignment
instant is epoch seconds, because assign_coins_if_needed subtracts datetimes
and compares elapsed days. -/
structure AuthUser where
  username : String
  virtual_coins : ℚ
  last_coins_assignment : Option Int := none
  deriving Repr, DecidableEq

/-- Default amount of User.assign_initial_coins: Decimal 100.00. -/
def defaultLoginCoins : ℚ := 100

/-- User.assign_initial_coins: add the amount and stamp the instant. -/
def assignInitialCoins (now : Int) (amount : ℚ) (u : AuthUser) : AuthUser :=
  { u with virtual_coins := u.virtual_coins + amount,
           last_coins_assignment := some now }

/-- Python timedelta .days of an elapsed interval in seconds: floor
division by 86400 (rounding toward minus infinity). -/
def timedeltaDays (secs : Int) : Int := Int.fdiv secs 86400

/-- LoginView.assign_coins_if_needed: credit the default amount when the
user has no assignment instant or the elapsed days are at least 1. -/
def assignCoinsIfNeeded (now : Int) (u : AuthUser) : AuthUser :=
  match u.last_coins_assignment with
  | none => assignInitialCoins now defaultLoginCoins u
  | some t =>
    if 1 ≤ timedeltaDays (now - t) then assignInitialCoins now defaultLoginCoins u
    else u

/-! ### The external API client (matches/api_client.py) -/

/-- What a call of APIFootballClient._make_request can run into: a transport
or HTTP error (a requests exception, including raise_for_status), or a JSON
payload with its errors entry (an absent or empty errors key is the empty
list) and its response items (absent key likewise empty). -/
inductive ApiOutcome (α : Type) where
  | transportError
  | payload (errors : List String) (response : List α)
  deriving Repr, DecidableEq

/-- The value _make_request hands back to its caller: None on a transport
error, None again on a truthy errors entry, otherwise the response items. -/
def makeRequest {α : Type} : ApiOutcome α → Option (List α)
  | .transportError => none
  | .payload errs resp => if errs.isEmpty then some resp else none

/-- The four situations a call can be in, as the specification taxonomy
carves them up: transport/HTTP error, provider-reported error payload,
empty result, and non-empty result. -/
inductive CallCase where
  | transportError
  | providerError
  | emptyResult
  | items
  deriving Repr, DecidableEq

/-- Which of the taxonomy cases a concrete call outcome belongs to. -/
def callCase {α : Type} : ApiOutcome α → CallCase
  | .transportError => .transportError
  | .payload errs resp =>
    if errs.isEmpty then (if resp.isEmpty then .emptyResult else .items)
    else .providerError

/-! ### Keyword-argument binding of the sync call (matches/views.py) -/

/-- Whether a Python call passing exactly the given keyword arguments binds
against a function accepting the given parameter names (no **kwargs
anywhere in api_client.py): every passed name must be accepted, else the
call raises TypeError. -/
def kwargsBind (accepted : List String) (passed : List String) : Bool :=
  passed.all fun k => accepted.contains k

/-- Keyword parameters of APIFootballClient.get_fixtures_with_odds. -/
def getFixturesWithOddsKeywords : List String := ["league_id", "date"]

/-- Keyword arguments MatchListView.post passes to get_fixtures_with_odds
on every sync request (days_range defaults to 7, so it is always passed). -/
def matchListPostSyncKeywords : List String := ["league_id", "date", "days_range"]

/-! ### 1X2 odds extraction of jornada creation (matches/views.py) -/

/-- An entry of the values list of a bet market: the outcome label and the
odd, none when the odd key is absent (present odds parse to a rational;
float of an unparseable string raises and is outside the embedded domain). -/
structure OddsValue where
  value : Option String := none
  odd : Option ℚ := none
  deriving Repr, DecidableEq

/-- A bet market of a bookmaker. -/
structure BetMarket where
  name : Option String := none
  values : List OddsValue := []
  deriving Repr, DecidableEq

/-- A bookmaker entry of an odds item. -/
structure Bookmaker where
  bets : List BetMarket := []
  deriving Repr, DecidableEq

/-- One item of the odds response payload. -/
structure OddsItem where
  bookmakers : List Bookmaker := []
  deriving Repr, DecidableEq

/-- Extracted 1X2 odds. -/
structure Odds1X2 where
  home : ℚ
  draw : ℚ
  away : ℚ
  deriving Repr, DecidableEq

/-- One iteration over the values of the Match Winner market: a Home, Draw
or Away label overwrites the corresponding odd, absent odd keys fall back
to the default of that outcome. -/
def applyOddsValue (o : Odds1X2) (v : OddsValue) : Odds1X2 :=
  if v.value == some "Home" then { o with home := v.odd.getD 2 }
  else if v.value == some "Draw" then { o with draw := v.odd.getD 3 }
  else if v.value == some "Away" then { o with away := v.odd.getD 4 }
  else o

/-- Whether the first bet of the first bookmaker of the item is the Match
Winner market (only that position is ever inspected by the handler). -/
def firstBetIsMatchWinner (item : OddsItem) : Bool :=
  match item.bookmakers.head? with
  | none => false
  | some bm =>
    match bm.bets.head? with
    | none => false
    | some bet => bet.name == some "Match Winner"

/-- The odds-extraction loop of JornadaManagementView.post: walk the odds
items until one where the first bet of the first bookmaker is the Match Winner
market, fold its values over the defaults 2.0/3.0/4.0, and stop (the break
of the source); without such an item the defaults survive. -/
def extractOdds1X2 : List OddsItem → Odds1X2
  | [] => ⟨2, 3, 4⟩
  | item :: rest =>
    match item.bookmakers.head? with
    | none => extractOdds1X2 rest
    | some bm =>
      match bm.bets.head? with
      | none => extractOdds1X2 rest
      | some bet =>
        if bet.name == some "Match Winner" then
          bet.values.foldl applyOddsValue ⟨2, 3, 4⟩
        else extractOdds1X2 rest

/-! ### Helper lemmas on the upsert -/

/-- Counting documents of a fixture id splits over cons. -/
theorem countFixture_cons (d : MatchDoc) (rest : List MatchDoc) (fid : Nat) :
    countFixture (d :: rest) fid =
      countFixture rest fid + (if d.fixture_id = fid then 1 else 0) := by
  simp [countFixture, List.countP_cons]

/-- Upserting a document keyed by fid into a collection holding at most one
document with that id leaves exactly one. -/
theorem countFixture_upsert (fid : Nat) (doc : MatchDoc)
    (hdoc : doc.fixture_id = fid) :
    ∀ c : List MatchDoc, countFixture c fid ≤ 1 →
      countFixture (updateOneUpsert fid doc c) fid = 1 := by
  intro c
  induction c with
  | nil =>
    intro _
    simp [countFixture, updateOneUpsert, hdoc]
  | cons x rest ih =>
    intro hc
    rw [countFixture_cons] at hc
    by_cases hx : x.fixture_id = fid
    · rw [updateOneUpsert, if_pos hx, countFixture_cons, if_pos hdoc]
      rw [if_pos hx] at hc
      omega
    · rw [updateOneUpsert, if_neg hx, countFixture_cons, if_neg hx]
      rw [if_neg hx] at hc
      have := ih (by omega)
      omega

/-- In a collection holding at most one document with the fixture id, every
document carrying that id after the upsert is the upserted one. -/
theorem mem_upsert_fixture_eq (fid : Nat) (doc : MatchDoc)
    (hdoc : doc.fixture_id = fid) :
    ∀ c : List MatchDoc, countFixture c fid ≤ 1 →
      ∀ d ∈ updateOneUpsert fid doc c, d.fixture_id = fid → d = doc := by
  intro c
  induction c with
  | nil =>
    intro _ d hd _
    simpa [updateOneUpsert] using hd
  | cons x rest ih =>
    intro hc d hd hdf
    rw [countFixture_cons] at hc
    by_cases hx : x.fixture_id = fid
    · rw [updateOneUpsert, if_pos hx] at hd
      rw [if_pos hx] at hc
      rcases List.mem_cons.mp hd with h | h
      · exact h
      · exfalso
        have hzero : countFixture rest fid = 0 := by omega
        have hnone := List.countP_eq_zero.mp hzero
        exact absurd (by simpa using hdf) (by simpa using hnone d h)
    · rw [updateOneUpsert, if_neg hx] at hd
      rw [if_neg hx] at hc
      rcases List.mem_cons.mp hd with h | h
      · exact absurd (h ▸ hdf) hx
      · exact ih (by omega) d h hdf

/-! ### Claim theorems -/

/-- Claim C5: upserting match data with the same fixture_id twice, with
different scores, leaves exactly one match document for that fixture_id,
and its score equals the score of the second (latest) write. -/
theorem upsert_twice_last_write_wins
    (c : List MatchDoc) (d1 d2 : MatchData) (f : Nat) (t1 t2 : Nat)
    (h1 : d1.fixture_id = some f) (h2 : d2.fixture_id = some f) (hf : f ≠ 0)
    (hscore : d1.goals_home ≠ d2.goals_home ∨ d1.goals_away ≠ d2.goals_away)
    (hc : countFixture c f ≤ 1) :
    countFixture (matchCreateOrUpdate d2 t2 (matchCreateOrUpdate d1 t1 c).2).2 f = 1 ∧
    ∀ d ∈ (matchCreateOrUpdate d2 t2 (matchCreateOrUpdate d1 t1 c).2).2,
      d.fixture_id = f →
        d.score_home = d2.goals_home ∧ d.score_away = d2.goals_away := by
  have hb1 : truthyNat d1.fixture_id = true := by simp [truthyNat, h1, hf]
  have hb2 : truthyNat d2.fixture_id = true := by simp [truthyNat, h2, hf]
  have e1 : (matchCreateOrUpdate d1 t1 c).2 = updateOneUpsert f (buildMatchDoc d1 f t1) c := by
    rw [matchCreateOrUpdate, if_pos hb1, h1]
  have hc1 : countFixture (matchCreateOrUpdate d1 t1 c).2 f = 1 := by
    rw [e1]
    exact countFixture_upsert f _ rfl c hc
  have e2 : (matchCreateOrUpdate d2 t2 (matchCreateOrUpdate d1 t1 c).2).2 =
      updateOneUpsert f (buildMatchDoc d2 f t2) (matchCreateOrUpdate d1 t1 c).2 := by
    rw [matchCreateOrUpdate, if_pos hb2, h2]
  refine ⟨?_, ?_⟩
  · rw [e2]
    exact countFixture_upsert f _ rfl _ (by omega)
  · intro d hd hdf
    rw [e2] at hd
    have := mem_upsert_fixture_eq f (buildMatchDoc d2 f t2) rfl
      (matchCreateOrUpdate d1 t1 c).2 (by omega) d hd hdf
    subst this
    exact ⟨rfl, rfl⟩

/-- Witness for C5: two writes of fixture 10 on the empty collection, the
first with score 0-0, the second with score 2-1; one document remains and
it carries 2-1. -/
theorem upsert_twice_last_write_wins_witness :
    countFixture (matchCreateOrUpdate
      { fixture_id := some 10, goals_home := some 2, goals_away := some 1 } 5
      (matchCreateOrUpdate
        { fixture_id := some 10, goals_home := some 0, goals_away := some 0 } 4 []).2).2 10 = 1 ∧
    ∀ d ∈ (matchCreateOrUpdate
      { fixture_id := some 10, goals_home := some 2, goals_away := some 1 } 5
      (matchCreateOrUpdate
        { fixture_id := some 10, goals_home := some 0, goals_away := some 0 } 4 []).2).2,
      d.fixture_id = 10 → d.score_home = some 2 ∧ d.score_away = some 1 :=
  upsert_twice_last_write_wins []
    { fixture_id := some 10, goals_home := some 0, goals_away := some 0 }
    { fixture_id := some 10, goals_home := some 2, goals_away := some 1 }
    10 4 5 rfl rfl (by decide) (Or.inl (by decide)) (by decide)

/-- Claim C8: deactivating a non-empty set of fixture ids sets
is_active = false and refreshes last_updated on exactly the documents whose
fixture_id is in the set, and leaves every other document, and every other
field of the targeted documents, unchanged. -/
theorem deactivate_targets_exact
    (ids : List Nat) (hne : ids ≠ []) (now : Nat) (coll : List MatchDoc)
    (i : Nat) (d : MatchDoc) (hd : coll[i]? = some d) :
    (deactivateMatches (some ids) now coll).1[i]? =
      some (if ids.contains d.fixture_id then
              { d with is_active := false, last_updated := now } else d) := by
  obtain ⟨x, xs, rfl⟩ : ∃ x xs, ids = x :: xs := by
    cases ids with
    | nil => exact absurd rfl hne
    | cons x xs => exact ⟨x, xs, rfl⟩
  rw [show (deactivateMatches (some (x :: xs)) now coll).1 =
        coll.map (fun d => if (x :: xs).contains d.fixture_id then deactivateDoc now d else d)
      from rfl]
  rw [List.getElem?_map, hd]
  simp [deactivateDoc]

/-- Claim C9: calling the deactivation with no fixture ids (None or the
empty list) deactivates every document of the collection, not none of them:
all results are inactive and the collection size is unchanged. -/
theorem deactivate_falsy_ids_all (now : Nat) (c : List MatchDoc) :
    ((deactivateMatches none now c).1.all fun d => !d.is_active) = true ∧
    (deactivateMatches none now c).1.length = c.length ∧
    ((deactivateMatches (some []) now c).1.all fun d => !d.is_active) = true ∧
    (deactivateMatches (some []) now c).1.length = c.length := by
  refine ⟨?_, by simp [deactivateMatches], ?_, by simp [deactivateMatches]⟩ <;>
    simp [deactivateMatches, truthyIdList, deactivateDoc, List.all_eq_true]

/-- Claim C10: every match upsert unconditionally stores is_active = true
and, when the payload carries no jornada field, stores jornada "current";
so re-syncing a soft-deleted fixture reactivates its (unique) document and
overwrites its jornada label. -/
theorem upsert_reactivates_sets_jornada
    (md : MatchData) (f : Nat) (now : Nat) (c : List MatchDoc)
    (hfid : md.fixture_id = some f) (hf : f ≠ 0)
    (hc : countFixture c f ≤ 1) :
    countFixture (matchCreateOrUpdate md now c).2 f = 1 ∧
    ∀ d ∈ (matchCreateOrUpdate md now c).2, d.fixture_id = f →
      d.is_active = true ∧ (md.jornada = none → d.jornada = "current") := by
  have hb : truthyNat md.fixture_id = true := by simp [truthyNat, hfid, hf]
  have e : (matchCreateOrUpdate md now c).2 = updateOneUpsert f (buildMatchDoc md f now) c := by
    rw [matchCreateOrUpdate, if_pos hb, hfid]
  refine ⟨?_, ?_⟩
  · rw [e]
    exact countFixture_upsert f _ rfl c hc
  · intro d hd hdf
    rw [e] at hd
    have := mem_upsert_fixture_eq f (buildMatchDoc md f now) rfl c hc d hd hdf
    subst this
    refine ⟨rfl, fun hj => ?_⟩
    simp [buildMatchDoc, hj]

/-- Witness for C8: two documents with fixture ids 1 and 2, deactivating
the set containing 1 at instant 99, observed at position 0. -/
theorem deactivate_targets_exact_witness :
    (deactivateMatches (some [1]) 99
      [{ fixture_id := 1 }, { fixture_id := 2 }]).1[0]? =
      some (if [1].contains (({ fixture_id := 1 } : MatchDoc)).fixture_id then
              { ({ fixture_id := 1 } : MatchDoc) with
                  is_active := false, last_updated := 99 }
            else { fixture_id := 1 }) :=
  deactivate_targets_exact [1] (by decide) 99
    [{ fixture_id := 1 }, { fixture_id := 2 }] 0 { fixture_id := 1 } rfl

/-- Witness for C10: re-syncing fixture 7, previously soft-deleted under
jornada J1, with a payload carrying no jornada field. -/
theorem upsert_reactivates_sets_jornada_witness :
    countFixture (matchCreateOrUpdate { fixture_id := some 7 } 3
      [{ fixture_id := 7, is_active := false, jornada := "J1" }]).2 7 = 1 ∧
    ∀ d ∈ (matchCreateOrUpdate { fixture_id := some 7 } 3
      [{ fixture_id := 7, is_active := false, jornada := "J1" }]).2,
      d.fixture_id = 7 → d.is_active = true ∧
        (({ fixture_id := some 7 } : MatchData).jornada = none →
          d.jornada = "current") :=
  upsert_reactivates_sets_jornada { fixture_id := some 7 } 7 3
    [{ fixture_id := 7, is_active := false, jornada := "J1" }]
    rfl (by decide) (by decide)

/-- Claim C1: without the force option, when some active match of the
target jornada has a started status (1H, HT, 2H, AET, PEN or FT), the
command refuses the whole batch: every user row, hence every coin balance
and last-assignment instant, is unchanged. -/
theorem commandHandle_refuses_when_started
    (jornadaOpt : Option String) (amount : ℚ) (now : String)
    (mcoll : List MatchDoc) (users : List UserRec) (jn : String)
    (hres : resolveJornada jornadaOpt mcoll = some jn)
    (m : MatchDoc) (hm : m ∈ jornadaActiveMatches mcoll jn)
    (hst : statusStarted m.status = true) :
    (commandHandle jornadaOpt amount false now mcoll users).users = users := by
  have hne : (jornadaActiveMatches mcoll jn).isEmpty = false := by
    cases h : jornadaActiveMatches mcoll jn with
    | nil => rw [h] at hm; simp at hm
    | cons a l => rfl
  have hall : ((jornadaActiveMatches mcoll jn).all
      fun m => !statusStarted m.status) = false := by
    rw [List.all_eq_false]
    exact ⟨m, hm, by simp [hst]⟩
  unfold commandHandle
  rw [hres]
  simp [hne, hall]

/-- Witness for C1: jornada J1 holds a single live (1H) match; the single
user row survives the refused batch untouched. -/
theorem commandHandle_refuses_when_started_witness :
    (commandHandle (some "J1") 100 false "2024-08-02T00:00:00+00:00"
      [{ fixture_id := 1, status := some "1H", jornada := "J1" }]
      [{ username := "alice", is_active := true, virtual_coins := 0 }]).users =
    [{ username := "alice", is_active := true, virtual_coins := 0 }] :=
  commandHandle_refuses_when_started (some "J1") 100 "2024-08-02T00:00:00+00:00"
    [{ fixture_id := 1, status := some "1H", jornada := "J1" }]
    [{ username := "alice", is_active := true, virtual_coins := 0 }] "J1"
    rfl { fixture_id := 1, status := some "1H", jornada := "J1" } (by decide) rfl

/-- Claim C2: without the force option, an active user whose
last-assignment instant exceeds (as an isoformat string) the earliest
truthy match date of the target jornada keeps an unchanged row: balance
and instant as before. -/
theorem commandHandle_skips_assigned_user
    (jornadaOpt : Option String) (amount : ℚ) (now : String)
    (mcoll : List MatchDoc) (users : List UserRec) (jn e t : String)
    (i : Nat) (u : UserRec)
    (hres : resolveJornada jornadaOpt mcoll = some jn)
    (hu : users[i]? = some u)
    (hact : u.is_active = true)
    (hlast : u.last_coins_assignment = some t)
    (hdate : earliestMatchDate (jornadaActiveMatches mcoll jn) = some e)
    (hlt : pyStrLt e t = true) :
    (commandHandle jornadaOpt amount false now mcoll users).users[i]? = some u := by
  unfold commandHandle
  rw [hres]
  cases hempty : (jornadaActiveMatches mcoll jn).isEmpty with
  | true => simp [hempty, hu]
  | false =>
    cases hall : ((jornadaActiveMatches mcoll jn).all
        fun m => !statusStarted m.status) with
    | false => simp [hempty, hall, hu]
    | true =>
      simp only [hempty, hall, Bool.not_true, Bool.false_and, Bool.and_self,
        Bool.false_eq_true, if_false, Bool.not_false, Bool.true_and]
      rw [List.getElem?_map, hu]
      simp [hact, processUser, hlast, hdate, hlt]

/-- Witness for C2: the only match of the jornada is dated 2024-08-01, the user
was last credited 2024-09-01, later as a string, so the row is unchanged. -/
theorem commandHandle_skips_assigned_user_witness :
    (commandHandle (some "J1") 100 false "2024-09-02T00:00:00+00:00"
      [{ fixture_id := 1, status := some "NS", jornada := "J1",
         date := some "2024-08-01T20:00:00+00:00" }]
      [{ username := "alice", is_active := true, virtual_coins := 40,
         last_coins_assignment := some "2024-09-01T00:00:00+00:00" }]).users[0]? =
    some { username := "alice", is_active := true, virtual_coins := 40,
           last_coins_assignment := some "2024-09-01T00:00:00+00:00" } :=
  commandHandle_skips_assigned_user (some "J1") 100 "2024-09-02T00:00:00+00:00"
    [{ fixture_id := 1, status := some "NS", jornada := "J1",
       date := some "2024-08-01T20:00:00+00:00" }]
    [{ username := "alice", is_active := true, virtual_coins := 40,
       last_coins_assignment := some "2024-09-01T00:00:00+00:00" }]
    "J1" "2024-08-01T20:00:00+00:00" "2024-09-01T00:00:00+00:00" 0
    { username := "alice", is_active := true, virtual_coins := 40,
      last_coins_assignment := some "2024-09-01T00:00:00+00:00" }
    rfl rfl rfl rfl rfl (by decide)

/-- Claim C3 counterexample: a transport error and a provider-reported
error payload produce the identical returned value None while belonging to
different cases of the taxonomy, so a caller cannot tell from the returned
value which of the three situations occurred. -/
theorem makeRequest_conflates_transport_and_provider :
    makeRequest (ApiOutcome.transportError : ApiOutcome String) =
      makeRequest (ApiOutcome.payload ["Too many requests"] []) ∧
    callCase (ApiOutcome.transportError : ApiOutcome String) ≠
      callCase (ApiOutcome.payload ["Too many requests"] [] : ApiOutcome String) :=
  ⟨rfl, by decide⟩

/-- Claim C3 amended: the returned value of _make_request distinguishes
failure (None, covering both a transport/HTTP error and a provider-reported
error payload) from an empty result from a non-empty result; the two
failure causes are not separable from the returned value. -/
theorem makeRequest_distinguishes_failure_empty_items
    {α : Type} (o : ApiOutcome α) :
    (makeRequest o = none ↔
      (callCase o = CallCase.transportError ∨
       callCase o = CallCase.providerError)) ∧
    (makeRequest o = some [] ↔ callCase o = CallCase.emptyResult) ∧
    ((∃ x xs, makeRequest o = some (x :: xs)) ↔ callCase o = CallCase.items) := by
  cases o with
  | transportError => simp [makeRequest, callCase]
  | payload errs resp =>
    cases errs with
    | nil =>
      cases resp with
      | nil => simp [makeRequest, callCase]
      | cons x xs => simp [makeRequest, callCase]
    | cons e es => simp [makeRequest, callCase]

/-- Claim C4: in the jornada-creation odds extraction, a payload whose
Match Winner market (first bet of the first bookmaker) holds only a Draw outcome yields
draw from the payload with home and away at the defaults 2.0 and 4.0; an
item whose first bookmaker or first market is absent or is not the Match
Winner market yields the full defaults 2.0/3.0/4.0. -/
theorem extractOdds_draw_only_and_defaults
    (item : OddsItem) (bm : Bookmaker) (bet : BetMarket) (d : ℚ)
    (rest : List OddsItem)
    (hbm : item.bookmakers.head? = some bm)
    (hbet : bm.bets.head? = some bet)
    (hname : bet.name = some "Match Winner")
    (hvals : bet.values = [{ value := some "Draw", odd := some d }]) :
    extractOdds1X2 (item :: rest) = ⟨2, d, 4⟩ ∧
    ∀ item2 : OddsItem, firstBetIsMatchWinner item2 = false →
      extractOdds1X2 [item2] = ⟨2, 3, 4⟩ := by
  constructor
  · simp only [extractOdds1X2, hbm, hbet, hname, hvals]
    simp [applyOddsValue]
  · intro item2 hmw
    unfold firstBetIsMatchWinner at hmw
    cases hb : item2.bookmakers.head? with
    | none => simp [extractOdds1X2, hb]
    | some bm2 =>
      simp only [hb] at hmw
      cases hbt : bm2.bets.head? with
      | none => simp [extractOdds1X2, hb, hbt]
      | some bet2 =>
        simp only [hbt] at hmw
        simp [extractOdds1X2, hb, hbt, hmw]

/-- Witness for C4: a single bookmaker quoting only Draw at 5 gives odds
2/5/4, and an item without bookmakers gives 2/3/4. -/
theorem extractOdds_draw_only_and_defaults_witness :
    extractOdds1X2 [{ bookmakers := [{ bets := [{ name := some "Match Winner", values := [{ value := some "Draw", odd := some 5 }] }] }] }] = ⟨2, 5, 4⟩ ∧
    extractOdds1X2 [{ bookmakers := [] }] = ⟨2, 3, 4⟩ := by
  have h := extractOdds_draw_only_and_defaults
    { bookmakers := [{ bets := [{ name := some "Match Winner", values := [{ value := some "Draw", odd := some 5 }] }] }] }
    { bets := [{ name := some "Match Winner", values := [{ value := some "Draw", odd := some 5 }] }] }
    { name := some "Match Winner", values := [{ value := some "Draw", odd := some 5 }] }
    5 [] rfl rfl rfl rfl
  exact ⟨h.1, h.2 { bookmakers := [] } rfl⟩

/-- Claim C6: on successful login, a user with no previous assignment, or
one at least a day (86400 seconds) old, is credited the default 100.00 and
stamped with the current instant; a user credited less than a day ago is
unchanged by the login. -/
theorem login_assigns_when_due (u : AuthUser) (now : Int) :
    (u.last_coins_assignment = none →
      assignCoinsIfNeeded now u =
        { u with virtual_coins := u.virtual_coins + 100,
                 last_coins_assignment := some now }) ∧
    (∀ t, u.last_coins_assignment = some t → 86400 ≤ now - t →
      assignCoinsIfNeeded now u =
        { u with virtual_coins := u.virtual_coins + 100,
                 last_coins_assignment := some now }) ∧
    (∀ t, u.last_coins_assignment = some t → now - t < 86400 →
      assignCoinsIfNeeded now u = u) := by
  have key : ∀ x : Int, 1 ≤ timedeltaDays x ↔ 86400 ≤ x := by
    intro x
    rw [timedeltaDays, Int.fdiv_eq_ediv _ (by norm_num)]
    omega
  refine ⟨fun h => ?_, fun t ht hd => ?_, fun t ht hd => ?_⟩
  · simp [assignCoinsIfNeeded, h, assignInitialCoins, defaultLoginCoins]
  · simp [assignCoinsIfNeeded, ht, (key _).mpr hd, assignInitialCoins,
      defaultLoginCoins]
  · have hnot : ¬ 1 ≤ timedeltaDays (now - t) := by rw [key]; omega
    simp [assignCoinsIfNeeded, ht, hnot]

/-- Witness for C6: a never-credited user and a user credited at epoch 0
both get 100 coins at instant 200000; a user credited at epoch 0 is
unchanged at instant 100. -/
theorem login_assigns_when_due_witness :
    assignCoinsIfNeeded 200000 { username := "bob", virtual_coins := 5 } =
      { username := "bob", virtual_coins := 105, last_coins_assignment := some 200000 } ∧
    assignCoinsIfNeeded 200000 { username := "bob", virtual_coins := 5, last_coins_assignment := some 0 } =
      { username := "bob", virtual_coins := 105, last_coins_assignment := some 200000 } ∧
    assignCoinsIfNeeded 100 { username := "bob", virtual_coins := 5, last_coins_assignment := some 0 } =
      { username := "bob", virtual_coins := 5, last_coins_assignment := some 0 } := by
  refine ⟨?_, ?_, ?_⟩
  · have h := (login_assigns_when_due { username := "bob", virtual_coins := 5 } 200000).1 rfl
    rw [h]
    norm_num
  · have h := (login_assigns_when_due { username := "bob", virtual_coins := 5, last_coins_assignment := some 0 } 200000).2.1 0 rfl (by norm_num)
    rw [h]
    norm_num
  · exact (login_assigns_when_due { username := "bob", virtual_coins := 5, last_coins_assignment := some 0 } 100).2.2 0 rfl (by norm_num)

/-- Claim C7, behavior at the failing input: the POST /matches/ sync
handler passes the keyword arguments league_id, date and days_range to
get_fixtures_with_odds, whose signature accepts only league_id and date,
so the call never binds (Python raises TypeError before any fetch or
upsert happens). -/
theorem matchListPost_sync_kwargs_mismatch :
    kwargsBind getFixturesWithOddsKeywords matchListPostSyncKeywords = false := by
  decide

end ElAgustin
